import Mathlib

/-!
Shallow embedding of `sms_backup_dump.py` (class `SMSdumper`), an Android
SMS/call-log XML to HTML converter.  String attribute maps (`element.attrib`,
Python dicts) are modelled as association lists in insertion order; Python
exceptions (`KeyError`, `ValueError`, `TypeError`, `binascii.Error`) are
modelled with `Except String`; timestamps are microseconds since the epoch
as `Nat` (the script converts epoch milliseconds to `datetime`, whose
resolution is one microsecond, so a record with millisecond value `ms` has
key `ms * 1000`; `datetime.fromtimestamp` uses the local timezone, which we
fix to UTC — none of the verified properties depend on the zone offset).
-/

/-- Attribute map of an XML element (`element.attrib`): ordered key/value pairs. -/
abbrev AttrMap := List (String × String)

/-- Association-list lookup (first binding wins), modelling Python dict indexing. -/
def alist_get {κ α : Type} [DecidableEq κ] (m : List (κ × α)) (k : κ) : Option α :=
  match m with
  | [] => none
  | p :: rest => if p.1 = k then some p.2 else alist_get rest k

/-- Python `d[k]` on a string attribute map. -/
def lookupA (m : AttrMap) (k : String) : Option String :=
  alist_get m k

/-- Python `d[k]`, raising `KeyError` when the key is absent. -/
def keyErr {α : Type} (o : Option α) : Except String α :=
  match o with
  | some a => Except.ok a
  | none => Except.error ("KeyError")

/-- Python numeric conversion, raising `ValueError` on failure. -/
def valueErr {α : Type} (o : Option α) : Except String α :=
  match o with
  | some a => Except.ok a
  | none => Except.error ("ValueError")

/-- Characters kept by `fs_safe_name`: `c.isalpha() or c.isdigit() or c in ['-', '_', '.']`
(Python `isalpha`/`isdigit` cover Unicode; the ASCII classes used here agree with it on
all ASCII inputs, which is all the verified statements use). -/
def keep_char (c : Char) : Bool :=
  c.isAlpha || c.isDigit || c == '-' || c == '_' || c == '.'

/-- Python `str.rstrip()`: drop trailing whitespace. -/
def py_rstrip (l : List Char) : List Char :=
  (l.reverse.dropWhile Char.isWhitespace).reverse

/-- `SMSdumper.fs_safe_name` (lines 435-451): keep only letters, digits and
`- _ .`, then `rstrip` the result. -/
def fs_safe_name (fname : String) : String :=
  String.mk (py_rstrip (fname.data.filter keep_char))

/-- `SMSdumper.format_number` (lines 453-462): format a phone number by length,
via Python string slices; any other length is returned unchanged. -/
def format_number (num : String) : String :=
  if num.length = 10 then
    "(" ++ num.take 3 ++ ")" ++ (num.drop 3).take 3 ++ "-" ++ num.drop 6
  else if num.length = 11 then
    num.take 1 ++ "-" ++ (num.drop 1).take 3 ++ "-" ++ (num.drop 4).take 3 ++ "-" ++ num.drop 7
  else if num.length = 7 then
    num.take 3 ++ "-" ++ num.drop 3
  else num

/-- Python `str.startswith`. -/
def py_startswith (s p : String) : Bool :=
  s.data.take p.data.length == p.data

/-- Numeric value of a digit list (most significant first). -/
def digits_val (l : List Char) : Nat :=
  l.foldl (fun a c => a * 10 + (c.toNat - 48)) 0

/-- Parse of a nonempty all-digit string to `Nat` (the `date` attributes the
script consumes are epoch-millisecond digit strings; Python would accept wider
`float` syntax, which no verified statement relies on). -/
def parse_nat_digits (s : String) : Option Nat :=
  if s.data ≠ [] ∧ s.data.all Char.isDigit then some (digits_val s.data) else none

/-- Python `int(str)`: optional surrounding whitespace, optional sign, digits. -/
def py_int (s : String) : Option Int :=
  match (s.trim).data with
  | [] => none
  | '-' :: rest => if rest ≠ [] ∧ rest.all Char.isDigit then some (-(digits_val rest : Int)) else none
  | '+' :: rest => if rest ≠ [] ∧ rest.all Char.isDigit then some ((digits_val rest : Int)) else none
  | l => if l.all Char.isDigit then some ((digits_val l : Int)) else none

/-- Value of one character of the standard base64 alphabet. -/
def b64val (c : Char) : Option Nat :=
  if 'A' ≤ c ∧ c ≤ 'Z' then some (c.toNat - 65)
  else if 'a' ≤ c ∧ c ≤ 'z' then some (c.toNat - 97 + 26)
  else if '0' ≤ c ∧ c ≤ '9' then some (c.toNat - 48 + 52)
  else if c = '+' then some 62
  else if c = '/' then some 63
  else none

/-- Byte output of a base64 data-character sequence: full quads give three
bytes; two or three leftover characters give one or two bytes. -/
def b64chunks : List Nat → List Nat
  | a :: b :: c :: d :: rest =>
    (a * 4 + b / 16) :: ((b % 16) * 16 + c / 4) :: ((c % 4) * 64 + d) :: b64chunks rest
  | [a, b] => [a * 4 + b / 16]
  | [a, b, c] => [a * 4 + b / 16, (b % 16) * 16 + c / 4]
  | _ => []

/-- `base64.b64decode` with `validate=False` (the call on line 233): characters
outside the alphabet are discarded, `=` ends the data, and the call raises
`binascii.Error` (modelled as `none`) when the padded length is not a multiple
of four or one data character is left over. -/
def b64decode (s : String) : Option (List Nat) :=
  let content := s.data.takeWhile (fun c => c ≠ '=')
  let cs := content.filterMap b64val
  let pads := ((s.data.dropWhile (fun c => c ≠ '=')).filter (fun c => c = '=')).length
  if (cs.length + pads) % 4 ≠ 0 then none
  else if cs.length % 4 = 1 then none
  else some (b64chunks cs)

/-- `SMSdumper.write_mms_data_file` (lines 212-238): builds the file name
`'%s_%f_%s_%s' % (name, float_ts, seq, orig_fname)` (the `%f`-rendered
timestamp is received here already as a string), sanitizes it, base64-decodes
the payload when decodable, writes the bytes, and returns the path relative to
the output directory (`os.path.join('media', ...)`).  When decoding fails the
`except` clause leaves `data` a `str`, and `fh.write(data)` on the file opened
in mode `'wb'` then raises `TypeError` in Python 3 — modelled as an error.
The returned pair is (bytes written to disk, returned relative path). -/
def write_mms_data_file (data seq name ts_str orig_fname : String) :
    Except String (List Nat × String) :=
  let fn := name ++ "_" ++ ts_str ++ "_" ++ seq ++ "_" ++ orig_fname
  let relpath := "media/" ++ fs_safe_name fn
  match b64decode data with
  | some bytes => Except.ok (bytes, relpath)
  | none => Except.error ("TypeError")

/-- Body of the `for x in part.attrib` loop of `SMSdumper.parse_mms_parts`
(lines 202-208), building `foo` in attribute order: a `data` attribute longer
than 200 characters becomes `'REDACTED'` followed by a `data_file_path` entry;
every other attribute is copied unchanged. -/
def parse_mms_part_loop (name ts_str seq : String) (part : AttrMap) :
    AttrMap → Except String AttrMap
  | [] => Except.ok []
  | (x, v) :: rest =>
    if x = "data" ∧ v.length > 200 then do
      let cl ← keyErr (lookupA part ("cl"))
      let w ← write_mms_data_file v seq name ts_str cl
      let tail ← parse_mms_part_loop name ts_str seq part rest
      Except.ok ((x, "REDACTED") :: ("data_file_path", w.2) :: tail)
    else do
      let tail ← parse_mms_part_loop name ts_str seq part rest
      Except.ok ((x, v) :: tail)

/-- One iteration of the `for part in mms.iter('part')` loop of
`SMSdumper.parse_mms_parts` (lines 199-209): read `seq`, then rebuild the
attribute map with large payloads extracted. -/
def parse_mms_part (name ts_str : String) (part : AttrMap) : Except String AttrMap := do
  let seq ← keyErr (lookupA part ("seq"))
  parse_mms_part_loop name ts_str seq part part

/-- `SMSdumper.parse_mms_parts` (lines 195-210) over the list of `<part>`
attribute maps of one MMS. -/
def parse_mms_parts (name ts_str : String) (parts : List AttrMap) :
    Except String (List AttrMap) :=
  parts.mapM (parse_mms_part name ts_str)

/-- Module-level `CALL_TYPES` dict (lines 80-87). -/
def CALL_TYPES : AttrMap :=
  [("1", "Incoming call from"), ("2", "Outgoing call to"), ("3", "Missed call from"),
   ("4", "Voicemail from"), ("5", "Rejected call from"), ("6", "Refused List call from")]

/-- Module-level `SMS_TYPES` dict (lines 89-93). -/
def SMS_TYPES : AttrMap :=
  [("1", "Received from"), ("2", "Sent to"), ("3", "Draft to")]

/-- Two-digit zero-padded decimal rendering. -/
def pad2 (n : Nat) : String :=
  if n < 10 then "0" ++ toString n else toString n

/-- Abbreviated day names for `strftime('%a')`, indexed with 0 = Sunday. -/
def day_names : List String :=
  ["Sun", "Mon", "Tue", "Wed", "Thu", "Fri", "Sat"]

/-- Civil date (year, month, day) of a day count since 1970-01-01. -/
def civil_from_days (z : Nat) : Nat × Nat × Nat :=
  let z2 := z + 719468
  let era := z2 / 146097
  let doe := z2 % 146097
  let yoe := (doe - doe / 1460 + doe / 36524 - doe / 146096) / 365
  let y := yoe + era * 400
  let doy := doe - (365 * yoe + yoe / 4 - yoe / 100)
  let mp := (5 * doy + 2) / 153
  let d := doy - (153 * mp + 2) / 5 + 1
  let m := if mp < 10 then mp + 3 else mp - 9
  (if m ≤ 2 then y + 1 else y, m, d)

/-- `dt.strftime("%a %Y-%m-%d %H:%M:%S")` (line 355) of a microsecond
timestamp, with the timezone fixed to UTC. -/
def date_stamp (us : Nat) : String :=
  let secs := us / 1000000
  let days := secs / 86400
  let sod := secs % 86400
  let c := civil_from_days days
  day_names.getD ((days + 4) % 7) ("") ++ " " ++ toString c.1 ++ "-" ++ pad2 c.2.1 ++
    "-" ++ pad2 c.2.2 ++ " " ++ pad2 (sod / 3600) ++ ":" ++ pad2 (sod % 3600 / 60) ++
    ":" ++ pad2 (sod % 60)

/-- Python `str(timedelta(seconds=secs))` as used on lines 376-381. -/
def str_timedelta (secs : Int) : String :=
  let days : Int := Int.fdiv secs 86400
  let rem : Nat := (secs - days * 86400).toNat
  let core := toString (rem / 3600) ++ ":" ++ pad2 (rem % 3600 / 60) ++ ":" ++ pad2 (rem % 60)
  if days = 0 then core
  else if days = 1 ∨ days = -1 then toString days ++ " day, " ++ core
  else toString days ++ " days, " ++ core

/-- `SMSdumper.format_call` (lines 369-382). -/
def format_call (data : AttrMap) : Except String String := do
  let ty ← keyErr (lookupA data ("type"))
  let call_type := (lookupA CALL_TYPES ty).getD ("Unknown call type " ++ ty ++ " from")
  let identifier_class := if ty ≠ "2" then "incoming" else "outgoing"
  let dur_str ← keyErr (lookupA data ("duration"))
  let dur ← valueErr (py_int dur_str)
  let num ← keyErr (lookupA data ("number"))
  Except.ok ("<span class=\"identifier " ++ identifier_class ++ "\">" ++ call_type ++
    " " ++ format_number num ++ "</span> " ++ str_timedelta dur ++ " call")

/-- `SMSdumper.format_sms` (lines 384-396). -/
def format_sms (data : AttrMap) : Except String String := do
  let ty := (lookupA data ("type")).getD ("unknown")
  let sms_type := (lookupA SMS_TYPES ty).getD ("Unknown SMS type " ++ ty)
  let identifier_class := if ty = "1" then "incoming" else "outgoing"
  let addr ← keyErr (lookupA data ("address"))
  let body ← keyErr (lookupA data ("body"))
  Except.ok ("<span class=\"identifier " ++ identifier_class ++ "\">" ++ sms_type ++
    " " ++ format_number addr ++ ":</span> " ++ body)

/-- One record of the per-contact maps: the element's attribute map, plus the
`mms_parts` / `mms_addresses` entries `parse_sms` attaches only when non-empty
(lines 182-188), plus the `_record_type` tag `write_contact_output` sets
(lines 251 and 258). -/
structure Record where
  attrs : AttrMap
  mms_parts : Option (List AttrMap)
  mms_addresses : Option (List AttrMap)
  record_type : String
deriving DecidableEq

/-- `SMSdumper.format_mms` (lines 398-433). -/
def format_mms (r : Record) : Except String String := do
  let mb ← keyErr (lookupA r.attrs ("msg_box"))
  let sms_type := (lookupA SMS_TYPES mb).getD ("Unknown MMS msg_box " ++ mb)
  let identifier_class := if mb = "1" then "incoming" else "outgoing"
  let addrs ← keyErr r.mms_addresses
  let from_addr ← addrs.foldlM
    (fun acc addr => do
      let t ← keyErr (lookupA addr ("type"))
      if t = "137" then keyErr (lookupA addr ("address")) else Except.ok acc)
    ("unknown")
  let head := "<span class=\"identifier " ++ identifier_class ++ "\">" ++ sms_type ++
    " " ++ format_number from_addr ++ ":</span>"
  let parts ← keyErr r.mms_parts
  parts.foldlM
    (fun s part => do
      let ct ← keyErr (lookupA part ("ct"))
      if ct = "application/smil" then Except.ok s
      else if ct = "text/plain" then do
        let tx ← keyErr (lookupA part ("text"))
        Except.ok (s ++ tx ++ "<br />")
      else if py_startswith ct ("image/") then do
        let p ← keyErr (lookupA part ("data_file_path"))
        Except.ok (s ++ "<a href=\"" ++ p ++ "\"><img src=\"" ++ p ++
          "\" width=\"200\" height=\"200\" /></a>")
      else
        match lookupA part ("data_file_path") with
        | some p => Except.ok (s ++ "Unsupported attachment content type " ++ ct ++
            ": " ++ "<a href=\"" ++ p ++ "\">" ++ p ++ "</a>")
        | none => Except.ok (s ++ "Unsupported attachment content type: " ++ ct))
    head

/-- Record-type dispatch of `SMSdumper.format_record` (lines 357-365): calls
and MMS-shaped records propagate exceptions, SMS-shaped records swallow them
(`except Exception: pass`), contributing nothing to the paragraph body. -/
def format_record_body (r : Record) : Except String String :=
  if r.record_type = "call" then format_call r.attrs
  else if r.mms_parts.isSome then format_mms r
  else
    match format_sms r.attrs with
    | Except.ok s => Except.ok s
    | Except.error _ => Except.ok ("")

/-- `SMSdumper.format_record` (lines 352-367): the paragraph shell with the
date stamp wrapped around the type-specific body. -/
def format_record (dt : Nat) (r : Record) : Except String String :=
  match format_record_body r with
  | Except.error e => Except.error e
  | Except.ok body =>
    Except.ok ("<p>" ++ "<span class=\"date\">" ++ date_stamp dt ++ ": " ++ "</span>" ++
      body ++ "</p>\n")

/-- Upper bound of a key list (0 when empty), used to bound the collision loop. -/
def keys_max (keys : List Nat) : Nat :=
  keys.foldr max 0

theorem le_keys_max {dt : Nat} {keys : List Nat} (h : dt ∈ keys) : dt ≤ keys_max keys := by
  induction keys with
  | nil => cases h
  | cons a l ih =>
    cases h with
    | head => exact Nat.le_max_left _ _
    | tail _ h2 => exact (ih h2).trans (Nat.le_max_right _ _)

/-- The `while dt in c_data: dt = dt + timedelta(microseconds=1)` loop of
`SMSdumper.write_contact_output` (lines 252-253 and 259-260): advance the
timestamp by one microsecond until it is not yet a key. -/
def next_free (keys : List Nat) (dt : Nat) : Nat :=
  if dt ∈ keys then next_free keys (dt + 1) else dt
termination_by keys_max keys + 1 - dt
decreasing_by
  have := le_keys_max (by assumption)
  omega

/-- One `c_data[dt] = data` insertion of `write_contact_output` after the
collision loop: Python dicts keep insertion order, and the adjusted key is
fresh, so this appends a new binding. -/
def timeline_insert (m : List (Nat × Record)) (dt : Nat) (r : Record) :
    List (Nat × Record) :=
  m ++ [(next_free (m.map Prod.fst) dt, r)]

/-- Tagging of a call record with `data['_record_type'] = 'call'` (line 251). -/
def tag_call (a : AttrMap) : Record :=
  ⟨a, none, none, "call"⟩

/-- Tagging of a message record with `data['_record_type'] = 'sms'` (line 258). -/
def tag_sms (r : Record) : Record :=
  ⟨r.attrs, r.mms_parts, r.mms_addresses, "sms"⟩

/-- The `c_data` construction of `SMSdumper.write_contact_output`
(lines 247-263): insert every call record, then every message record, each
through the collision loop. -/
def build_c_data (calls : List (Nat × AttrMap)) (smses : List (Nat × Record)) :
    List (Nat × Record) :=
  let m1 := calls.foldl (fun m p => timeline_insert m p.1 (tag_call p.2)) []
  smses.foldl (fun m p => timeline_insert m p.1 (tag_sms p.2)) m1

/-- `sorted(contact_data.keys())` (line 347). -/
def sorted_keys (cdata : List (Nat × Record)) : List Nat :=
  List.insertionSort (· ≤ ·) (cdata.map Prod.fst)

/-- The record loop of `SMSdumper.contact_html` (lines 347-348): one formatted
paragraph per sorted key, via `contact_data[dt]`. -/
def render_keys (m : List (Nat × Record)) : List Nat → Except String (List String)
  | [] => Except.ok []
  | dt :: rest => do
    let r ← keyErr (alist_get m dt)
    let s ← format_record dt r
    let tail ← render_keys m rest
    Except.ok (s :: tail)

/-- The dedented head/style preamble of `contact_html` (lines 306-341) with the
contact name interpolated into the title. -/
def preamble_seg (name : String) : String :=
  "\n<html>\n<head>\n<title>Calls and SMS for " ++ name ++
  "</title>\n<style type=\"text/css\">\n.date \x7b\n    font-weight: bold;\n\x7d\n\n" ++
  ".identifier \x7b\n    font-weight: bold;\n\x7d\n\n.outgoing \x7b\n    color: blue;\n\x7d\n\n" ++
  ".incoming \x7b\n    color: red;\n\x7d\n\n.imgdiv \x7b\n    width: 200px;\n    height: 200px;\n\x7d\n\n" ++
  "img !.graph \x7b\n    width: auto;\n    height: auto;\n    max-width: 200;\n    max-height: 200;\n\x7d\n" ++
  "</style>\n</head>\n<body>\n"

/-- The `<h1>` heading appended on line 342. -/
def h1_seg (name : String) : String :=
  "<h1>Calls and SMS for " ++ name ++ "</h1>\n"

/-- The chart heading appended on line 344 when a chart exists. -/
def h2_graph_seg : String :=
  "<h2>SMS Count by Day</h2>\n"

/-- The chart image tag appended on lines 345-346 when a chart exists. -/
def img_chart_seg (p : String) : String :=
  "<img src=\"media/" ++ p ++ "\" height=\"768\" width=\"1024\" class=\"graph\" />\n"

/-- The closing tags appended on line 349. -/
def footer_seg : String :=
  "</body>\n</html>\n"

/-- `SMSdumper.contact_html` (lines 304-350) as the ordered list of strings the
method concatenates: preamble, heading, optional chart section, one paragraph
per timeline entry in ascending key order, footer. -/
def contact_html_segs (name : String) (cdata : List (Nat × Record))
    (sms_graph_path : Option String) : Except String (List String) := do
  let recs ← render_keys cdata (sorted_keys cdata)
  Except.ok ([preamble_seg name, h1_seg name] ++
    (match sms_graph_path with
     | some p => [h2_graph_seg, img_chart_seg p]
     | none => []) ++ recs ++ [footer_seg])

/-- `SMSdumper.contact_html` as the final HTML string. -/
def contact_html (name : String) (cdata : List (Nat × Record))
    (sms_graph_path : Option String) : Except String String := do
  let segs ← contact_html_segs name cdata sms_graph_path
  Except.ok (String.join segs)

/-- Microseconds per day, for the `dt.date()` bucketing of the chart. -/
def us_per_day : Nat := 86400000000

/-- `SMSdumper.graph_contact_sms` (lines 272-302): `None` when the timestamp
list is empty; otherwise the sanitized `<contact>.png` file name together with
the plotted day series (one `(day, count)` bar per day from the earliest to
the latest bucket, gaps filled with zero).  The matplotlib rendering and
`fig.savefig` are I/O on the returned data: `none` means no file is produced. -/
def graph_contact_sms (contact_name : String) (sms_datetimes : List Nat) :
    Option (String × List (Nat × Nat)) :=
  match sms_datetimes with
  | [] => none
  | d0 :: rest =>
    let fname := fs_safe_name (contact_name ++ ".png")
    let days := (d0 :: rest).map (fun dt => dt / us_per_day)
    let lo := days.foldl min (d0 / us_per_day)
    let hi := days.foldl max (d0 / us_per_day)
    let series := (List.range (hi - lo + 1)).map
      (fun i => (lo + i, (days.filter (fun d => d = lo + i)).length))
    some (fname, series)

/-- Python dict assignment `m[dt] = a` as both source readers perform it
(lines 142 and 162): replace the value in place when the key exists, append
a new binding otherwise. -/
def reader_insert {α : Type} (m : List (Nat × α)) (dt : Nat) (a : α) : List (Nat × α) :=
  if (m.map Prod.fst).contains dt then
    m.map (fun p => if p.1 = dt then (p.1, a) else p)
  else m ++ [(dt, a)]

/-- The `if name not in M: M[name] = dict()` then `M[name][dt] = a` pattern of
both readers (lines 139-142 and 159-162). -/
def contacts_insert {α : Type} (cm : List (String × List (Nat × α))) (name : String)
    (dt : Nat) (a : α) : List (String × List (Nat × α)) :=
  if (cm.map Prod.fst).contains name then
    cm.map (fun p => if p.1 = name then (p.1, reader_insert p.2 dt a) else p)
  else cm ++ [(name, reader_insert [] dt a)]

/-- Contact-key resolution of both readers: the `key_attr` attribute
(`'number'` for calls, `'address'` for messages), overridden by a non-empty
`contact_name` (lines 133-138, 153-158, 169-174). -/
def resolve_name (key_attr : String) (a : AttrMap) : Except String String := do
  let base ← keyErr (lookupA a key_attr)
  match lookupA a ("contact_name") with
  | some cn => if cn ≠ "" then Except.ok cn else Except.ok base
  | none => Except.ok base

/-- `datetime.fromtimestamp(float(attrib['date']) / 1000.0)` as the
microsecond timestamp `ms * 1000`. -/
def parse_date_us (a : AttrMap) : Except String Nat := do
  let d ← keyErr (lookupA a ("date"))
  let ms ← valueErr (parse_nat_digits d)
  Except.ok (ms * 1000)

/-- A plain `<sms>` record as stored by `parse_sms` (line 162): the bare
attribute map, no parts, no addresses, not yet type-tagged. -/
def mk_sms_record (a : AttrMap) : Record :=
  ⟨a, none, none, ""⟩

/-- An `<mms>` record as stored by `parse_sms` (lines 178-189): `mms_parts`
and `mms_addresses` are attached only when non-empty. -/
def parse_mms_record (attrs : AttrMap) (parts addrs : List AttrMap) : Record :=
  ⟨attrs, if parts.length > 0 then some parts else none,
   if addrs.length > 0 then some addrs else none, ""⟩

/-- The `for sms in root.xpath('//sms')` loop of `SMSdumper.parse_sms`
(lines 151-165) over pre-extracted attribute maps: resolve the contact key,
convert the timestamp, store the record (a parse failure is logged and
re-raised, aborting the run). -/
def parse_sms_rows (rows : List AttrMap) :
    Except String (List (String × List (Nat × Record))) :=
  rows.foldlM
    (fun cm a => do
      let name ← resolve_name ("address") a
      let dt ← parse_date_us a
      Except.ok (contacts_insert cm name dt (mk_sms_record a)))
    []

/-- The `for call in root.xpath('//call')` loop of `SMSdumper.parse_calls`
(lines 132-142) over pre-extracted attribute maps. -/
def parse_calls_rows (rows : List AttrMap) :
    Except String (List (String × List (Nat × AttrMap))) :=
  rows.foldlM
    (fun cm a => do
      let name ← resolve_name ("number") a
      let dt ← parse_date_us a
      Except.ok (contacts_insert cm name dt a))
    []

/-- Attribute map of an `Except`-valued parse result (`[]` on error). -/
def ok_attrs (e : Except String AttrMap) : AttrMap :=
  match e with
  | Except.ok a => a
  | Except.error _ => []

/-- Segment list of an `Except`-valued rendering (`[]` on error). -/
def ok_segs (e : Except String (List String)) : List String :=
  match e with
  | Except.ok l => l
  | Except.error _ => []

/-! ## General lemmas -/

theorem str_data_append (a b : String) : (a ++ b).data = a.data ++ b.data := rfl

theorem str_ne_of_take2 {a b : String} {la lb : List Char} (ha : a.data.take 2 = la)
    (hb : b.data.take 2 = lb) (hne : la ≠ lb) : a ≠ b := by
  intro e
  subst e
  rw [ha] at hb
  exact hne hb

theorem py_rstrip_sublist (l : List Char) : (py_rstrip l).Sublist l := by
  have h := (List.dropWhile_sublist (l := l.reverse) Char.isWhitespace).reverse
  simpa [py_rstrip] using h

theorem fs_safe_name_data_sublist (s : String) : (fs_safe_name s).data.Sublist s.data :=
  (py_rstrip_sublist (s.data.filter keep_char)).trans (List.filter_sublist s.data)

theorem fs_safe_name_chars (s : String) : ((fs_safe_name s).data.all keep_char) = true := by
  rw [List.all_eq_true]
  intro c hc
  exact List.of_mem_filter ((py_rstrip_sublist (s.data.filter keep_char)).subset hc)

/-! ## C2 — filename sanitizer -/

/-- C2 (counterexample): the claim predicts
`fs_safe_name("John O'Brien! (mobile)") = "John OBrien mobile"` with interior
spaces retained, but the filter on lines 444-450 keeps only letters, digits
and `- _ .`, so spaces are removed as well and the code returns
`"JohnOBrienmobile"`. -/
theorem C2_counterexample :
    fs_safe_name ("John O\x27Brien! (mobile)") = "JohnOBrienmobile" ∧
    ("JohnOBrienmobile" : String) ≠ "John OBrien mobile" := by
  exact ⟨by decide, by decide⟩

/-- C2 (amended): `fs_safe_name` keeps, in order, exactly characters that are
letters, digits or one of `- _ .` (every character of the output satisfies the
keep-predicate and the output is a subsequence of the input — spaces, interior
ones included, are removed, and the trailing `rstrip` can only drop further
characters); on the spec's example it returns `"JohnOBrienmobile"`. -/
theorem C2_amended :
    (∀ s : String, ((fs_safe_name s).data.all keep_char) = true) ∧
    (∀ s : String, (fs_safe_name s).data.Sublist s.data) ∧
    fs_safe_name ("John O\x27Brien! (mobile)") = "JohnOBrienmobile" :=
  ⟨fs_safe_name_chars, fs_safe_name_data_sublist, by decide⟩

/-! ## C7 — phone number formatter -/

/-- C7: `format_number` renders a 10-character input as `(AAA)BBB-CCCC`, an
11-character input as `A-BBB-CCC-DDDD`, a 7-character input as `AAA-BBBB`, and
returns every input of any other length unchanged; there is no check that the
input is numeric (the all-letter 10-character input is sliced the same way). -/
theorem C7_format_number :
    format_number ("5551234567") = "(555)123-4567" ∧
    format_number ("15551234567") = "1-555-123-4567" ∧
    format_number ("1234567") = "123-4567" ∧
    format_number ("42") = "42" ∧
    format_number ("abcdefghij") = "(abc)def-ghij" ∧
    (∀ s : String, s.length ≠ 10 → s.length ≠ 11 → s.length ≠ 7 → format_number s = s) := by
  refine ⟨by decide, by decide, by decide, by decide, by decide, ?_⟩
  intro s h10 h11 h7
  simp [format_number, h10, h11, h7]

/-- C7 (witness): the unchanged-length case evaluated at `"42"`. -/
theorem C7_format_number_witness : format_number ("42") = "42" :=
  C7_format_number.2.2.2.2.2 ("42") (by decide) (by decide) (by decide)

/-! ## C4 — base64 fallback in the data-file writer -/

set_option maxRecDepth 4000 in
/-- C4 (code bug): the claim (and lines 232-237 of the source) intend that a
payload that fails base64 decoding is written raw and the relative media path
is still returned.  In Python 3 the `except` clause leaves `data` a `str`, and
`fh.write(data)` on the file opened in mode `'wb'` then raises `TypeError`, so
the writer raises instead of completing: on a 201-character payload of `'A'`s
(201 base64 data characters ≡ 1 mod 4, so `b64decode` raises
`binascii.Error`), the call aborts with the modelled `TypeError`. -/
theorem C4_write_raises_on_undecodable_payload :
    b64decode (String.mk (List.replicate 201 'A')) = none ∧
    write_mms_data_file (String.mk (List.replicate 201 'A')) ("0") ("c") ("1.000000") ("a.jpg") =
      Except.error ("TypeError") := by
  exact ⟨rfl, rfl⟩

/-! ## C5 — timestamp tie-break at merge time -/

theorem next_free_of_mem {keys : List Nat} {dt : Nat} (h : dt ∈ keys) :
    next_free keys dt = next_free keys (dt + 1) := by
  rw [next_free]
  simp [h]

theorem next_free_of_not_mem {keys : List Nat} {dt : Nat} (h : dt ∉ keys) :
    next_free keys dt = dt := by
  rw [next_free]
  simp [h]

/-- C5: inserting into the merged per-contact map keeps the original timestamp
when it is still free (so the first-inserted record of a colliding pair —
calls are inserted before messages — keeps its original key), and a colliding
timestamp is advanced by exactly one microsecond, then by further
one-microsecond steps while the advanced value still collides; in particular a
call and a message with the same timestamp end up at `dt` and `dt + 1`. -/
theorem C5_tie_break :
    (∀ (m : List (Nat × Record)) (dt : Nat) (r : Record), dt ∉ m.map Prod.fst →
      timeline_insert m dt r = m ++ [(dt, r)]) ∧
    (∀ (m : List (Nat × Record)) (dt : Nat) (r : Record), dt ∈ m.map Prod.fst →
      timeline_insert m dt r = m ++ [(next_free (m.map Prod.fst) (dt + 1), r)]) ∧
    (∀ (dt : Nat) (c : AttrMap) (s : Record),
      build_c_data [(dt, c)] [(dt, s)] = [(dt, tag_call c), (dt + 1, tag_sms s)]) := by
  refine ⟨?_, ?_, ?_⟩
  · intro m dt r h
    rw [timeline_insert, next_free_of_not_mem h]
  · intro m dt r h
    rw [timeline_insert, next_free_of_mem h]
  · intro dt c s
    have h1 : next_free ([] : List Nat) dt = dt := next_free_of_not_mem (by simp)
    have h2 : next_free [dt] dt = dt + 1 := by
      rw [next_free_of_mem (by simp), next_free_of_not_mem (by simp)]
    simp [build_c_data, timeline_insert, h1, h2]

/-- C5 (witness): the tie-break evaluated on a concrete collision at
timestamp 5. -/
theorem C5_tie_break_witness :
    timeline_insert ([] : List (Nat × Record)) 5 ⟨[], none, none, ""⟩ =
      [(5, ⟨[], none, none, ""⟩)] ∧
    timeline_insert [(5, (⟨[], none, none, ""⟩ : Record))] 5 ⟨[], none, none, ""⟩ =
      [(5, ⟨[], none, none, ""⟩)] ++ [(next_free [5] 6, ⟨[], none, none, ""⟩)] ∧
    build_c_data [(5, [])] [(5, ⟨[], none, none, ""⟩)] =
      [(5, tag_call []), (6, tag_sms ⟨[], none, none, ""⟩)] :=
  ⟨C5_tie_break.1 _ _ _ (by decide), C5_tie_break.2.1 _ _ _ (by decide),
   C5_tie_break.2.2 5 [] ⟨[], none, none, ""⟩⟩

/-! ## C6 — strictly ascending rendered timeline -/

theorem next_free_not_mem (keys : List Nat) (dt : Nat) : next_free keys dt ∉ keys := by
  refine next_free.induct keys (fun n => next_free keys n ∉ keys) ?_ ?_ dt
  · intro n h ih
    rw [next_free_of_mem h]
    exact ih
  · intro n h
    rw [next_free_of_not_mem h]
    exact h

theorem timeline_insert_keys_nodup {m : List (Nat × Record)} {dt : Nat} {r : Record}
    (h : (m.map Prod.fst).Nodup) : ((timeline_insert m dt r).map Prod.fst).Nodup := by
  unfold timeline_insert
  rw [List.map_append, List.nodup_append]
  refine ⟨h, by simp, ?_⟩
  intro a ha hb
  simp at hb
  subst hb
  exact next_free_not_mem _ _ ha

theorem foldl_timeline_keys_nodup {β : Type} (g : β → Record) :
    ∀ (l : List (Nat × β)) (m : List (Nat × Record)), (m.map Prod.fst).Nodup →
      ((l.foldl (fun m p => timeline_insert m p.1 (g p.2)) m).map Prod.fst).Nodup := by
  intro l
  induction l with
  | nil => intro m h; simpa using h
  | cons p rest ih =>
    intro m h
    rw [List.foldl_cons]
    exact ih _ (timeline_insert_keys_nodup h)

theorem build_c_data_keys_nodup (calls : List (Nat × AttrMap)) (smses : List (Nat × Record)) :
    ((build_c_data calls smses).map Prod.fst).Nodup := by
  unfold build_c_data
  exact foldl_timeline_keys_nodup _ smses _ (foldl_timeline_keys_nodup _ calls [] (by simp))

/-- C6: for every contact, the key sequence the renderer walks
(`sorted(contact_data.keys())`, one paragraph per key) over the merged
call/message map is strictly ascending — so in particular no two timeline
entries of a contact share a (possibly collision-adjusted) timestamp. -/
theorem C6_timeline_strictly_ascending (calls : List (Nat × AttrMap))
    (smses : List (Nat × Record)) :
    List.Pairwise (· < ·) (sorted_keys (build_c_data calls smses)) := by
  have hperm := List.perm_insertionSort (· ≤ ·) ((build_c_data calls smses).map Prod.fst)
  have hsorted := List.sorted_insertionSort (· ≤ ·) ((build_c_data calls smses).map Prod.fst)
  have hnodup : (sorted_keys (build_c_data calls smses)).Nodup :=
    hperm.nodup_iff.mpr (build_c_data_keys_nodup calls smses)
  exact (List.Pairwise.and hsorted hnodup).imp fun h => lt_of_le_of_ne h.1 h.2

/-! ## C1 — MMS payload extraction threshold -/

theorem py_startswith_append (p s : String) : py_startswith (p ++ s) p = true := by
  unfold py_startswith
  rw [str_data_append, List.take_left]
  simp

theorem parse_mms_part_loop_copies (name ts seq : String) (part : AttrMap) :
    ∀ l : AttrMap, (∀ kv ∈ l, ¬(kv.1 = "data" ∧ 200 < kv.2.length)) →
      parse_mms_part_loop name ts seq part l = Except.ok l := by
  intro l
  induction l with
  | nil => intro _; rfl
  | cons kv rest ih =>
    intro h
    obtain ⟨x, v⟩ := kv
    have hx : ¬(x = "data" ∧ 200 < v.length) := h ⟨x, v⟩ (by simp)
    simp only [parse_mms_part_loop, if_neg hx]
    rw [ih fun kv hkv => h kv (List.mem_cons_of_mem _ hkv)]
    rfl

theorem parse_mms_part_loop_extracts (name ts seq cl d : String) (part : AttrMap)
    (bs : List Nat) (hcl : lookupA part ("cl") = some cl) (hdec : b64decode d = some bs) :
    ∀ l : AttrMap, ("data", d) ∈ l → 200 < d.length → (l.map Prod.fst).Nodup →
      ("data_file_path") ∉ l.map Prod.fst →
      ∃ res, parse_mms_part_loop name ts seq part l = Except.ok res ∧
        lookupA res ("data") = some ("REDACTED") ∧
        lookupA res ("data_file_path") =
          some ("media/" ++ fs_safe_name (name ++ "_" ++ ts ++ "_" ++ seq ++ "_" ++ cl)) := by
  intro l
  induction l with
  | nil => intro h; cases h
  | cons kv rest ih =>
    intro hmem hlen hnd hdfp
    obtain ⟨x, v⟩ := kv
    have hnd2 : (rest.map Prod.fst).Nodup := (List.nodup_cons.mp (by simpa using hnd)).2
    have hx_notin : x ∉ rest.map Prod.fst := (List.nodup_cons.mp (by simpa using hnd)).1
    rcases List.mem_cons.mp hmem with heq | hrest
    · have hx : x = "data" := (Prod.ext_iff.mp heq.symm).1
      have hv : v = d := (Prod.ext_iff.mp heq.symm).2
      subst hx
      subst hv
      have hcopy : parse_mms_part_loop name ts seq part rest = Except.ok rest := by
        refine parse_mms_part_loop_copies name ts seq part rest fun kv hkv hk => ?_
        exact hx_notin (hk.1 ▸ List.mem_map_of_mem Prod.fst hkv)
      have hw : write_mms_data_file v seq name ts cl =
          Except.ok (bs, "media/" ++ fs_safe_name (name ++ "_" ++ ts ++ "_" ++ seq ++ "_" ++ cl)) := by
        unfold write_mms_data_file
        rw [hdec]
      refine ⟨("data", "REDACTED") :: ("data_file_path",
        "media/" ++ fs_safe_name (name ++ "_" ++ ts ++ "_" ++ seq ++ "_" ++ cl)) :: rest,
        ?_, by simp [lookupA, alist_get], by simp [lookupA, alist_get]⟩
      simp only [parse_mms_part_loop, hcl, keyErr, hw, hcopy, Bind.bind, Except.bind]
      simp [hlen]
    · have hxne : x ≠ "data" := fun hk => hx_notin (hk ▸ List.mem_map_of_mem Prod.fst hrest)
      have hx2 : ¬(x = "data" ∧ 200 < v.length) := fun hk => hxne hk.1
      obtain ⟨res, hres, hdat, hpath⟩ := ih hrest hlen hnd2
        fun hk => hdfp (List.mem_cons_of_mem _ hk)
      have hxdfp : x ≠ "data_file_path" := fun hk => hdfp (by simp [hk])
      refine ⟨(x, v) :: res, ?_, ?_, ?_⟩
      · simp only [parse_mms_part_loop, if_neg hx2, hres, Bind.bind, Except.bind]
      · simpa [lookupA, alist_get, hxne] using hdat
      · simpa [lookupA, alist_get, hxdfp] using hpath

/-- C1 input for the counterexample: a 204-character base64 `data` attribute
(204 data characters, no padding) that decodes to 153 bytes. -/
def d204 : String := String.mk (List.replicate 204 'A')

set_option maxRecDepth 4000 in
/-- C1 (counterexample): the claim keys extraction on the *decoded* length —
a part whose `data` decodes to at most 200 characters should be kept inline.
The guard on line 203 is `len(part.attrib[x]) > 200` on the *encoded* text:
this part's payload decodes to 153 bytes (≤ 200), yet the code redacts the
`data` value and adds a `data_file_path` reference instead of keeping it
inline. -/
theorem C1_counterexample :
    ((b64decode d204).getD []).length = 153 ∧
    lookupA (ok_attrs (parse_mms_part ("c") ("1.000000")
      [("seq", "0"), ("ct", "image/jpeg"), ("cl", "a.jpg"), ("data", d204)])) ("data") =
      some ("REDACTED") ∧
    lookupA (ok_attrs (parse_mms_part ("c") ("1.000000")
      [("seq", "0"), ("ct", "image/jpeg"), ("cl", "a.jpg"), ("data", d204)]))
      ("data_file_path") = some ("media/c_1.000000_0_a.jpg") := by
  refine ⟨rfl, ?_, ?_⟩ <;> rfl

/-- C1 (amended): the extraction threshold is the *encoded* length of the
`data` attribute text.  A part none of whose attributes is a `data` value
longer than 200 characters is copied unchanged (no `data_file_path` is
added); a part carrying a `data` value longer than 200 encoded characters
(with its `seq` and `cl` attributes present, unique keys, and a payload the
writer can actually store — see C4) gets `data` replaced by the marker
`'REDACTED'` and `data_file_path` set to `media/<sanitized composite name>`,
a path that always starts with `media/` (so it is never the bare marker);
the path is built only from the contact name, timestamp, sequence and
original filename, never from the payload. -/
theorem C1_amended :
    (∀ (name ts : String) (part : AttrMap) (seq : String),
      lookupA part ("seq") = some seq →
      (∀ kv ∈ part, ¬(kv.1 = "data" ∧ 200 < kv.2.length)) →
      parse_mms_part name ts part = Except.ok part) ∧
    (∀ (name ts : String) (part : AttrMap) (seq cl d : String) (bs : List Nat),
      lookupA part ("seq") = some seq → lookupA part ("cl") = some cl →
      ("data", d) ∈ part → 200 < d.length → b64decode d = some bs →
      (part.map Prod.fst).Nodup → ("data_file_path") ∉ part.map Prod.fst →
      ∃ res, parse_mms_part name ts part = Except.ok res ∧
        lookupA res ("data") = some ("REDACTED") ∧
        lookupA res ("data_file_path") =
          some ("media/" ++ fs_safe_name (name ++ "_" ++ ts ++ "_" ++ seq ++ "_" ++ cl)) ∧
        py_startswith ("media/" ++ fs_safe_name (name ++ "_" ++ ts ++ "_" ++ seq ++ "_" ++ cl))
          ("media/") = true) := by
  constructor
  · intro name ts part seq hseq hsmall
    unfold parse_mms_part
    rw [hseq]
    exact parse_mms_part_loop_copies name ts seq part part hsmall
  · intro name ts part seq cl d bs hseq hcl hmem hlen hdec hnd hdfp
    obtain ⟨res, hres, hdat, hpath⟩ :=
      parse_mms_part_loop_extracts name ts seq cl d part bs hcl hdec part hmem hlen hnd hdfp
    refine ⟨res, ?_, hdat, hpath, py_startswith_append ("media/") _⟩
    unfold parse_mms_part
    rw [hseq]
    exact hres

set_option maxRecDepth 4000 in
/-- C1 (witness): both branches of the amended statement evaluated on
concrete parts — a short payload kept inline, and the 204-character payload
extracted to `media/c_1.000000_0_a.jpg`. -/
theorem C1_amended_witness :
    parse_mms_part ("c") ("1.000000") [("seq", "0"), ("ct", "text/plain"), ("data", "hi")] =
      Except.ok [("seq", "0"), ("ct", "text/plain"), ("data", "hi")] ∧
    ∃ res, parse_mms_part ("c") ("1.000000")
        [("seq", "0"), ("ct", "image/jpeg"), ("cl", "a.jpg"), ("data", d204)] =
        Except.ok res ∧
      lookupA res ("data") = some ("REDACTED") ∧
      lookupA res ("data_file_path") =
        some ("media/" ++ fs_safe_name ("c" ++ "_" ++ "1.000000" ++ "_" ++ "0" ++ "_" ++ "a.jpg")) ∧
      py_startswith ("media/" ++ fs_safe_name ("c" ++ "_" ++ "1.000000" ++ "_" ++ "0" ++ "_" ++ "a.jpg"))
        ("media/") = true := by
  constructor
  · exact C1_amended.1 ("c") ("1.000000") _ ("0") rfl (by decide)
  · exact C1_amended.2 ("c") ("1.000000") _ ("0") ("a.jpg") d204 (List.replicate 153 0)
      rfl rfl (by decide) (by decide) rfl (by decide) (by decide)

/-! ## C3 — swallowed SMS formatting exceptions -/

set_option maxRecDepth 16000 in
/-- C3 (counterexample): an SMS-shaped record with no `address` attribute makes
`format_sms` raise `KeyError`, which `format_record` swallows — but the claim
says the record's *entire* paragraph is omitted with no fragment appearing.
In the code the paragraph shell `<p><span class="date">…: </span></p>` was
already appended before the `try` (lines 353-356), so the rendered page for a
timeline holding only this record contains that extra paragraph fragment. -/
theorem C3_counterexample :
    (∃ e, format_sms ([("type", "1")] : AttrMap) = Except.error e) ∧
    ok_segs (contact_html_segs ("x") [(0, ⟨[("type", "1")], none, none, "sms"⟩)] none) =
      [preamble_seg ("x"), h1_seg ("x"),
       "<p><span class=\"date\">Thu 1970-01-01 00:00:00: </span></p>\n", footer_seg] := by
  exact ⟨⟨"KeyError", rfl⟩, by decide⟩

/-- C3 (amended): any exception while formatting an SMS-shaped record
(`_record_type` not `'call'`, no `mms_parts` key) is swallowed and the run
continues, and the record's type-specific *body* is omitted — but the
paragraph is not dropped entirely: `format_record` still returns the `<p>`
paragraph shell containing the date stamp with an empty body. -/
theorem C3_amended (dt : Nat) (r : Record) (e : String)
    (hty : r.record_type ≠ "call") (hp : r.mms_parts = none)
    (herr : format_sms r.attrs = Except.error e) :
    format_record dt r =
      Except.ok ("<p>" ++ "<span class=\"date\">" ++ date_stamp dt ++ ": " ++ "</span>" ++
        "" ++ "</p>\n") := by
  unfold format_record format_record_body
  rw [if_neg hty, hp, herr]
  rfl

/-- C3 (witness): the amended statement evaluated on a record with an empty
attribute map at timestamp 0. -/
theorem C3_amended_witness :
    format_record 0 ⟨[], none, none, "sms"⟩ =
      Except.ok ("<p>" ++ "<span class=\"date\">" ++ date_stamp 0 ++ ": " ++ "</span>" ++
        "" ++ "</p>\n") :=
  C3_amended 0 ⟨[], none, none, "sms"⟩ ("KeyError") (by decide) rfl rfl

/-! ## C9 — MMS formatting exceptions are not swallowed -/

theorem format_mms_no_addresses (r : Record) (ha : r.mms_addresses = none) :
    format_mms r = Except.error ("KeyError") := by
  unfold format_mms
  rw [ha]
  cases h : lookupA r.attrs ("msg_box") <;>
    simp [h, keyErr, Bind.bind, Except.bind]

theorem alist_get_some_mem {κ α : Type} [DecidableEq κ] {m : List (κ × α)} {k : κ} {v : α}
    (h : alist_get m k = some v) : k ∈ m.map Prod.fst := by
  induction m with
  | nil => cases h
  | cons p rest ih =>
    by_cases hk : p.1 = k
    · simp [hk.symm]
    · simp only [alist_get, if_neg hk] at h
      exact List.mem_cons_of_mem _ (ih h)

theorem render_keys_error_of_mem {m : List (Nat × Record)} {dt : Nat} {r : Record}
    (hget : alist_get m dt = some r) (herr : (format_record dt r).isOk = false) :
    ∀ ks : List Nat, dt ∈ ks → (render_keys m ks).isOk = false := by
  intro ks
  induction ks with
  | nil => intro h; cases h
  | cons k rest ih =>
    intro hmem
    rcases List.mem_cons.mp hmem with heq | hrest
    · subst heq
      cases hfr : format_record dt r with
      | error e => simp [render_keys, hget, keyErr, hfr, Bind.bind, Except.bind, Except.isOk, Except.toBool]
      | ok s => rw [hfr] at herr; simp [Except.isOk, Except.toBool] at herr
    · cases hga : alist_get m k with
      | none => simp [render_keys, hga, keyErr, Bind.bind, Except.bind, Except.isOk, Except.toBool]
      | some r2 =>
        cases hfr : format_record k r2 with
        | error e => simp [render_keys, hga, keyErr, hfr, Bind.bind, Except.bind, Except.isOk, Except.toBool]
        | ok s =>
          have htail := ih hrest
          cases hrk : render_keys m rest with
          | error e2 =>
            simp [render_keys, hga, keyErr, hfr, hrk, Bind.bind, Except.bind, Except.isOk, Except.toBool]
          | ok tail => rw [hrk] at htail; simp [Except.isOk, Except.toBool] at htail

/-- C9: an MMS-shaped record (tagged `'sms'`, carrying a non-empty `mms_parts`
list) whose source `<mms>` element had no `<addr>` children — so `parse_sms`
attached no `mms_addresses` key — makes `format_mms` raise `KeyError` at
`data['mms_addresses']` (or already at `data['msg_box']`), and `format_record`
dispatches MMS-shaped records outside its `try` block, so the error
propagates: rendering any contact page whose timeline holds such a record
fails instead of dropping the paragraph — the swallowing leniency covers only
SMS-shaped records. -/
theorem C9_mms_without_addresses (dt : Nat) (r : Record) (ps : List AttrMap)
    (hty : r.record_type = "sms") (hp : r.mms_parts = some ps) (hne : ps ≠ [])
    (ha : r.mms_addresses = none) :
    format_record dt r = Except.error ("KeyError") ∧
    ∀ (name : String) (cdata : List (Nat × Record)) (g : Option String),
      alist_get cdata dt = some r → (contact_html_segs name cdata g).isOk = false := by
  have hfr : format_record dt r = Except.error ("KeyError") := by
    unfold format_record format_record_body
    rw [hty, hp, format_mms_no_addresses r ha]
    rfl
  refine ⟨hfr, ?_⟩
  intro name cdata g hget
  have hdt_keys : dt ∈ cdata.map Prod.fst := alist_get_some_mem hget
  have hdt_sorted : dt ∈ sorted_keys cdata :=
    ((List.perm_insertionSort (· ≤ ·) (cdata.map Prod.fst)).mem_iff).mpr hdt_keys
  have hrender := render_keys_error_of_mem hget (by rw [hfr]; rfl) (sorted_keys cdata) hdt_sorted
  cases hrk : render_keys cdata (sorted_keys cdata) with
  | error e => simp [contact_html_segs, hrk, Bind.bind, Except.bind, Except.isOk, Except.toBool]
  | ok recs => rw [hrk] at hrender; simp [Except.isOk, Except.toBool] at hrender

set_option maxRecDepth 16000 in
/-- C9 (witness): a concrete one-part MMS record with no addresses, alone on
a contact timeline, makes both the record formatter and the page renderer
fail. -/
theorem C9_mms_without_addresses_witness :
    format_record 0 ⟨[("msg_box", "1")], some [[("ct", "text/plain"), ("text", "hi")]],
      none, "sms"⟩ = Except.error ("KeyError") ∧
    (contact_html_segs ("x") [(0, ⟨[("msg_box", "1")],
      some [[("ct", "text/plain"), ("text", "hi")]], none, "sms"⟩)] none).isOk = false := by
  have h := C9_mms_without_addresses 0
    ⟨[("msg_box", "1")], some [[("ct", "text/plain"), ("text", "hi")]], none, "sms"⟩
    [[("ct", "text/plain"), ("text", "hi")]] rfl rfl (by decide) rfl
  exact ⟨h.1, h.2 ("x") _ none rfl⟩

/-! ## C8 — empty received-message list: no chart, no chart img tag -/

theorem str_len2_append {a : String} (b : String) (h : 2 ≤ a.data.length) :
    2 ≤ (a ++ b).data.length := by
  rw [str_data_append, List.length_append]
  omega

theorem str_take2_append {a : String} (b : String) (h : 2 ≤ a.data.length) :
    (a ++ b).data.take 2 = a.data.take 2 := by
  rw [str_data_append, List.take_append_of_le_length h]

theorem format_record_ok_take2 {dt : Nat} {r : Record} {s : String}
    (h : format_record dt r = Except.ok s) : s.data.take 2 = ['<', 'p'] := by
  unfold format_record at h
  cases hb : format_record_body r with
  | error e => rw [hb] at h; cases h
  | ok body =>
    rw [hb] at h
    injection h with h2
    rw [← h2]
    have l0 : 2 ≤ ("<p>" ++ "<span class=\"date\">").data.length := by decide
    have l1 := str_len2_append (date_stamp dt) l0
    have l2 := str_len2_append (": ") l1
    have l3 := str_len2_append ("</span>") l2
    have l4 := str_len2_append body l3
    rw [str_take2_append ("</p>\n") l4, str_take2_append body l3,
      str_take2_append ("</span>") l2, str_take2_append (": ") l1,
      str_take2_append (date_stamp dt) l0]
    decide

theorem preamble_seg_take2 (name : String) :
    (preamble_seg name).data.take 2 = ['\n', '<'] := by
  unfold preamble_seg
  have l0 : 2 ≤ ("\n<html>\n<head>\n<title>Calls and SMS for ").data.length := by decide
  have l1 := str_len2_append name l0
  have l2 := str_len2_append
    ("</title>\n<style type=\"text/css\">\n.date \x7b\n    font-weight: bold;\n\x7d\n\n") l1
  have l3 := str_len2_append
    (".identifier \x7b\n    font-weight: bold;\n\x7d\n\n.outgoing \x7b\n    color: blue;\n\x7d\n\n") l2
  have l4 := str_len2_append
    (".incoming \x7b\n    color: red;\n\x7d\n\n.imgdiv \x7b\n    width: 200px;\n    height: 200px;\n\x7d\n\n") l3
  have l5 := str_len2_append
    ("img !.graph \x7b\n    width: auto;\n    height: auto;\n    max-width: 200;\n    max-height: 200;\n\x7d\n") l4
  rw [str_take2_append _ l5, str_take2_append _ l4, str_take2_append _ l3,
    str_take2_append _ l2, str_take2_append _ l1, str_take2_append name l0]
  decide

theorem h1_seg_take2 (name : String) : (h1_seg name).data.take 2 = ['<', 'h'] := by
  unfold h1_seg
  have l0 : 2 ≤ ("<h1>Calls and SMS for ").data.length := by decide
  have l1 := str_len2_append name l0
  rw [str_take2_append _ l1, str_take2_append name l0]
  decide

theorem img_chart_seg_take2 (p : String) : (img_chart_seg p).data.take 2 = ['<', 'i'] := by
  unfold img_chart_seg
  have l0 : 2 ≤ ("<img src=\"media/").data.length := by decide
  have l1 := str_len2_append p l0
  rw [str_take2_append _ l1, str_take2_append p l0]
  decide

theorem render_keys_mem_take2 (m : List (Nat × Record)) :
    ∀ (ks : List Nat) (recs : List String), render_keys m ks = Except.ok recs →
      ∀ s ∈ recs, s.data.take 2 = ['<', 'p'] := by
  intro ks
  induction ks with
  | nil =>
    intro recs h s hs
    injection h with h2
    rw [← h2] at hs
    cases hs
  | cons k rest ih =>
    intro recs h s hs
    cases hga : alist_get m k with
    | none => simp [render_keys, hga, keyErr, Bind.bind, Except.bind] at h
    | some r =>
      cases hfr : format_record k r with
      | error e => simp [render_keys, hga, keyErr, hfr, Bind.bind, Except.bind] at h
      | ok s1 =>
        cases hrk : render_keys m rest with
        | error e => simp [render_keys, hga, keyErr, hfr, hrk, Bind.bind, Except.bind] at h
        | ok tail =>
          simp only [render_keys, hga, keyErr, hfr, hrk, Bind.bind, Except.bind] at h
          injection h with h2
          rw [← h2] at hs
          rcases List.mem_cons.mp hs with heq | htail
          · subst heq
            exact format_record_ok_take2 hfr
          · exact ih tail hrk s htail

/-- C8: the chart generator returns `None` for an empty received-message
timestamp list (line 273), which means no chart file is produced (the
matplotlib save is only reached on the other branch), and with a `None`
graph path `contact_html` never appends the chart `<img>` segment: the
chart image tag is not among the strings the contact page concatenates
(every paragraph segment starts `<p`, the heading `<h`, the footer `</`,
and the preamble with a newline, while the chart segment starts `<i`). -/
theorem C8_empty_chart :
    (∀ name : String, graph_contact_sms name [] = none) ∧
    (∀ (name : String) (cdata : List (Nat × Record)) (p : String),
      img_chart_seg p ∉ ok_segs (contact_html_segs name cdata none)) := by
  constructor
  · intro name
    rfl
  · intro name cdata p
    cases hr : render_keys cdata (sorted_keys cdata) with
    | error e =>
      simp [ok_segs, contact_html_segs, hr, Bind.bind, Except.bind]
    | ok recs =>
      have hsegs : ok_segs (contact_html_segs name cdata none) =
          preamble_seg name :: h1_seg name :: (recs ++ [footer_seg]) := by
        simp [ok_segs, contact_html_segs, hr, Bind.bind, Except.bind]
      rw [hsegs]
      intro hmem
      have himg := img_chart_seg_take2 p
      rcases List.mem_cons.mp hmem with h1 | hmem2
      · rw [h1, preamble_seg_take2 name] at himg
        exact absurd himg (by decide)
      rcases List.mem_cons.mp hmem2 with h2 | hmem3
      · rw [h2, h1_seg_take2 name] at himg
        exact absurd himg (by decide)
      rcases List.mem_append.mp hmem3 with h3 | h4
      · rw [render_keys_mem_take2 cdata (sorted_keys cdata) recs hr _ h3] at himg
        exact absurd himg (by decide)
      · have hf : footer_seg.data.take 2 = ['<', '/'] := by decide
        rcases List.mem_singleton.mp h4 with h5
        rw [h5, hf] at himg
        exact absurd himg (by decide)

/-! ## C10 — same-timestamp overwrite inside a single reader -/

theorem reader_insert_overwrites {α : Type} (m : List (Nat × α)) (dt : Nat) (a : α)
    (h : dt ∈ m.map Prod.fst) :
    (reader_insert m dt a).map Prod.fst = m.map Prod.fst ∧
    alist_get (reader_insert m dt a) dt = some a ∧
    (reader_insert m dt a).length = m.length := by
  have hc : (m.map Prod.fst).contains dt = true := List.elem_iff.mpr h
  refine ⟨?_, ?_, ?_⟩
  · rw [reader_insert, if_pos hc, List.map_map]
    refine List.map_congr_left fun q hq => ?_
    by_cases hk : q.1 = dt
    · simp [hk]
    · simp [hk]
  · rw [reader_insert, if_pos hc]
    clear hc
    induction m with
    | nil => cases h
    | cons q rest ih =>
      by_cases hk : q.1 = dt
      · simp [alist_get, hk]
      · have h2 : dt ∈ rest.map Prod.fst := by
          rw [List.map_cons] at h
          rcases List.mem_cons.mp h with h3 | h3
          · exact absurd h3.symm hk
          · exact h3
        simp only [List.map_cons, alist_get, if_neg hk]
        exact ih h2
  · rw [reader_insert, if_pos hc, List.length_map]

/-- C10: Python dict assignment in a single reader overwrites — feeding
`parse_sms` two `<sms>` rows with the same address and the same
epoch-millisecond `date`, the later row silently replaces the earlier one
under the same per-contact key (the earlier record is lost and the map does
not grow), while the one-microsecond adjustment exists only in the
merge-time inserter of `write_contact_output`, which always keeps both
records by moving the colliding one to the next free microsecond. -/
theorem C10_reader_overwrite :
    (∀ (n d b1 b2 : String) (ms : Nat), parse_nat_digits d = some ms →
      parse_sms_rows [[("address", n), ("date", d), ("body", b1)],
                      [("address", n), ("date", d), ("body", b2)]] =
        Except.ok [(n, [(ms * 1000,
          mk_sms_record [("address", n), ("date", d), ("body", b2)])])]) ∧
    (∀ (m : List (Nat × Record)) (dt : Nat) (a : Record), dt ∈ m.map Prod.fst →
      (reader_insert m dt a).length = m.length ∧
      alist_get (reader_insert m dt a) dt = some a) ∧
    (∀ (m : List (Nat × Record)) (dt : Nat) (r : Record),
      (timeline_insert m dt r).length = m.length + 1 ∧
      (dt ∈ m.map Prod.fst → dt + 1 ∉ m.map Prod.fst →
        timeline_insert m dt r = m ++ [(dt + 1, r)])) := by
  refine ⟨?_, ?_, ?_⟩
  · intro n d b1 b2 ms hms
    simp [parse_sms_rows, resolve_name, parse_date_us, lookupA, alist_get, keyErr, valueErr,
      hms, contacts_insert, reader_insert, mk_sms_record, Bind.bind, Except.bind,
      List.foldlM, pure, Except.pure]
  · intro m dt a h
    obtain ⟨_, h2, h3⟩ := reader_insert_overwrites m dt a h
    exact ⟨h3, h2⟩
  · intro m dt r
    constructor
    · rw [timeline_insert, List.length_append]
      rfl
    · intro h1 h2
      rw [timeline_insert, next_free_of_mem h1, next_free_of_not_mem h2]

/-- C10 (witness): two SMS rows for address `555` with the same millisecond
timestamp 1000 collapse to one record holding the second body, while the
merge-time inserter applied to the same collision keeps both entries. -/
theorem C10_reader_overwrite_witness :
    parse_sms_rows [[("address", "555"), ("date", "1000"), ("body", "x")],
                    [("address", "555"), ("date", "1000"), ("body", "y")]] =
      Except.ok [("555", [(1000000,
        mk_sms_record [("address", "555"), ("date", "1000"), ("body", "y")])])] ∧
    (reader_insert [(7, (⟨[], none, none, ""⟩ : Record))] 7 ⟨[], none, none, "sms"⟩).length = 1 ∧
    timeline_insert [(7, (⟨[], none, none, ""⟩ : Record))] 7 ⟨[], none, none, "sms"⟩ =
      [(7, ⟨[], none, none, ""⟩)] ++ [(8, ⟨[], none, none, "sms"⟩)] := by
  refine ⟨?_, ?_, ?_⟩
  · exact C10_reader_overwrite.1 ("555") ("1000") ("x") ("y") 1000 (by decide)
  · exact (C10_reader_overwrite.2.1 _ 7 _ (by decide)).1
  · exact (C10_reader_overwrite.2.2 _ 7 _).2 (by decide) (by decide)
